import Mathlib

/-!
Verification of the domain-randomization engine in
`mujoco_playground/_src/locomotion/pupper/randomize.py`.

Arrays of the mjx model are embedded as lists of rationals.  The external
JAX pseudorandom interface (`jax.random.split`, `jax.random.uniform`) is
modelled by an executable splittable generator: `split` walks a binary tree
of keys (so every step of the procedure gets a distinct sub-stream), and
`uniform` maps a key to a value of `[lo, hi)` via a concrete hash into
`[0, 1)`.  Only the properties the source relies on — determinism, the
half-open range, and distinctness of sub-streams — matter for the
theorems below.

JAX array-operation semantics embedded here:

* `x.at[i].set(v)` with a scalar index drops the update when the index is
  out of bounds (JAX's default scatter mode); `List.set` already does this.
* a scalar-index read `x[i]` clamps the index to the last element when out
  of bounds (JAX's default gather mode): `getClip` / `getRowClip`.
* elementwise `*` and `+` broadcast a length-1 operand and fail on any
  other length mismatch: `bmul` / `badd` return `Option`.
* `x.at[i:].set(v)` requires `v` to broadcast to the slice shape:
  `setSlice`.
* `jax.vmap` traces the mapped function once with abstract values, so a
  shape mismatch raises for every batch size, including zero, while a
  zero-length batch of a well-shaped function succeeds with empty outputs.
-/

/-- A pseudorandom key (models a `jax.random` PRNG key). -/
abbrev Key := Nat

/-- Models `jax.random.split k` (with the default count of 2): the pair
`(new_rng, subkey)`.  Walking left/right in a binary tree keeps all
derived keys distinct. -/
def split (k : Key) : Key × Key := (2 * k + 1, 2 * k + 2)

/-- Concrete hash of a key and a lane index into `[0, 1)`; stands in for
the threefry bit generator behind `jax.random.uniform`. -/
def unitQ (k i : Nat) : ℚ := (((k * 1103515245 + i * 12345 + 12345) % 2048 : ℕ) : ℚ) / 2048

/-- Models a scalar `jax.random.uniform(key, minval, maxval)` draw. -/
def uniformScalar (k : Key) (lo hi : ℚ) : ℚ := lo + (hi - lo) * unitQ k 0

/-- Models `jax.random.uniform(key, shape=(n,), minval, maxval)`:
independent lanes, one per index. -/
def uniformVec (k : Key) (n : Nat) (lo hi : ℚ) : List ℚ :=
  (List.range n).map fun i => lo + (hi - lo) * unitQ k i

/-- The rng remaining after `n` successive `rng, _ = split(rng)` steps. -/
def chainRng (k : Key) : Nat → Key
  | 0 => k
  | n + 1 => (split (chainRng k n)).1

/-- The subkey consumed by the `i`-th perturbation step (1-based): the
second output of the `i`-th split of the environment's seed. -/
def stepKey (k : Key) (i : Nat) : Key := (split (chainRng k (i - 1))).2

/-- Scalar-index read with JAX's out-of-bounds clamping. -/
def getClip (xs : List ℚ) (i : Nat) : ℚ := xs.getD (min i (xs.length - 1)) 0

/-- Row read of a 2-d array with JAX's out-of-bounds clamping. -/
def getRowClip (a : List (List ℚ)) (i : Nat) : List ℚ := a.getD (min i (a.length - 1)) []

/-- `a.at[i, j].set(v)` on a 2-d array: out-of-bounds updates are dropped. -/
def setAt2 (a : List (List ℚ)) (i j : Nat) (v : ℚ) : List (List ℚ) :=
  a.set i ((a.getD i []).set j v)

/-- Elementwise combination with JAX broadcasting: lengths must agree, or a
length-1 operand is broadcast; anything else is a shape error. -/
def bcast2 (f : ℚ → ℚ → ℚ) (xs ys : List ℚ) : Option (List ℚ) :=
  if xs.length = ys.length then some (List.zipWith f xs ys)
  else if xs.length = 1 then some (ys.map (f (xs.getD 0 0)))
  else if ys.length = 1 then some (xs.map (fun x => f x (ys.getD 0 0)))
  else none

/-- Elementwise product with broadcasting. -/
def bmul : List ℚ → List ℚ → Option (List ℚ) := bcast2 (· * ·)

/-- Elementwise sum with broadcasting. -/
def badd : List ℚ → List ℚ → Option (List ℚ) := bcast2 (· + ·)

/-- `xs.at[i:].set(v)`: `v` must match the slice length or broadcast from
length 1; otherwise a shape error. -/
def setSlice (xs : List ℚ) (i : Nat) (v : List ℚ) : Option (List ℚ) :=
  if v.length = xs.length - i then some (xs.take i ++ v)
  else if v.length = 1 then some (xs.take i ++ List.replicate (xs.length - i) (v.getD 0 0))
  else none

/-- The fields of `mjx.Model` touched by the randomizer, plus two
representative untouched fields (`gravity` from `model.opt` and
`geom_size`) standing for the rest of the aggregate. -/
structure MjxModel where
  geom_friction : List (List ℚ)
  body_ipos : List (List ℚ)
  body_mass : List ℚ
  qpos0 : List ℚ
  dof_frictionloss : List ℚ
  dof_armature : List ℚ
  gravity : List ℚ
  geom_size : List (List ℚ)
deriving Repr, DecidableEq

/-- `model.nbody`; `mjx.Model` keeps it equal to the length of
`body_mass`. -/
def MjxModel.nbody (m : MjxModel) : Nat := m.body_mass.length

def FLOOR_GEOM_ID : Nat := 0
def TORSO_BODY_ID : Nat := 1

def FLOOR_FRICTION_MIN : ℚ := 0.4
def FLOOR_FRICTION_MAX : ℚ := 1.0

def DOF_FRICTIONLOSS_SCALE_MIN : ℚ := 0.9
def DOF_FRICTIONLOSS_SCALE_MAX : ℚ := 1.1

def ARMAUTRE_SCALE_MIN : ℚ := 1.0
def ARMAUTRE_SCALE_MAX : ℚ := 1.05

def COM_POS_JITTER_MIN : ℚ := -0.05
def COM_POS_JITTER_MAX : ℚ := 0.05

def LINK_MASS_SCALE_MIN : ℚ := 0.9
def LINK_MASS_SCALE_MAX : ℚ := 1.1

def ADDED_MASS_MIN : ℚ := -0.5
def ADDED_MASS_MAX : ℚ := 0.5

def INIT_QPOS_JITTER_MIN : ℚ := -0.05
def INIT_QPOS_JITTER_MAX : ℚ := 0.05

/-- The tuple returned by the inner `rand_dynamics` closure for one
environment. -/
structure EnvResult where
  geom_friction : List (List ℚ)
  body_ipos : List (List ℚ)
  body_mass : List ℚ
  qpos0 : List ℚ
  dof_frictionloss : List ℚ
  dof_armature : List ℚ
deriving Repr, DecidableEq

/-- The inner `rand_dynamics` closure of `domain_randomize`, for a single
environment key; `none` is a JAX shape error. -/
def rand_dynamics (model : MjxModel) (rng0 : Key) : Option EnvResult :=
  -- Floor friction: =U(0.4, 1.0).
  let rng := (split rng0).1
  let key := (split rng0).2
  let geom_friction := setAt2 model.geom_friction FLOOR_GEOM_ID 0
    (uniformScalar key FLOOR_FRICTION_MIN FLOOR_FRICTION_MAX)
  -- Scale static friction: *U(0.9, DOF_FRICTIONLOSS_SCALE_MAX).
  let rng1 := (split rng).1
  let key := (split rng).2
  match bmul (model.dof_frictionloss.drop 6)
      (uniformVec key 12 DOF_FRICTIONLOSS_SCALE_MIN DOF_FRICTIONLOSS_SCALE_MAX) with
  | none => none
  | some frictionloss =>
  match setSlice model.dof_frictionloss 6 frictionloss with
  | none => none
  | some dof_frictionloss =>
  -- Scale armature: *U(ARMAUTRE_SCALE_MIN, ARMAUTRE_SCALE_MAX).
  let rng2 := (split rng1).1
  let key := (split rng1).2
  match bmul (model.dof_armature.drop 6)
      (uniformVec key 12 ARMAUTRE_SCALE_MIN ARMAUTRE_SCALE_MAX) with
  | none => none
  | some armature =>
  match setSlice model.dof_armature 6 armature with
  | none => none
  | some dof_armature =>
  -- Jitter center of mass position: +U(COM_POS_JITTER_MIN, COM_POS_JITTER_MAX).
  let rng3 := (split rng2).1
  let key := (split rng2).2
  let dpos := uniformVec key 3 COM_POS_JITTER_MIN COM_POS_JITTER_MAX
  match badd (getRowClip model.body_ipos TORSO_BODY_ID) dpos with
  | none => none
  | some newRow =>
  let body_ipos := model.body_ipos.set TORSO_BODY_ID newRow
  -- Scale all link masses: *U(LINK_MASS_SCALE_MIN, LINK_MASS_SCALE_MAX).
  let rng4 := (split rng3).1
  let key := (split rng3).2
  let dmass := uniformVec key model.nbody LINK_MASS_SCALE_MIN LINK_MASS_SCALE_MAX
  match bmul model.body_mass dmass with
  | none => none
  | some body_mass =>
  -- Add mass to torso: +U(ADDED_MASS_MIN, ADDED_MASS_MAX).
  let rng5 := (split rng4).1
  let key := (split rng4).2
  let dmassT := uniformScalar key ADDED_MASS_MIN ADDED_MASS_MAX
  let body_mass := body_mass.set TORSO_BODY_ID (getClip body_mass TORSO_BODY_ID + dmassT)
  -- Jitter qpos0: +U(INIT_QPOS_JITTER_MIN, INIT_QPOS_JITTER_MAX).
  let key := (split rng5).2
  match badd (model.qpos0.drop 7)
      (uniformVec key 12 INIT_QPOS_JITTER_MIN INIT_QPOS_JITTER_MAX) with
  | none => none
  | some tail =>
  match setSlice model.qpos0 7 tail with
  | none => none
  | some qpos0 =>
  some { geom_friction, body_ipos, body_mass, qpos0, dof_frictionloss, dof_armature }

/-- The axis descriptor: a structural twin of the model with one
`Option Nat` per field (JAX `in_axes` leaves). -/
structure AxisSpec where
  geom_friction : Option Nat
  body_ipos : Option Nat
  body_mass : Option Nat
  qpos0 : Option Nat
  dof_frictionloss : Option Nat
  dof_armature : Option Nat
  gravity : Option Nat
  geom_size : Option Nat
deriving Repr, DecidableEq

/-- `jax.tree_util.tree_map(lambda x: None, model)`. -/
def tree_map_none (_m : MjxModel) : AxisSpec :=
  { geom_friction := none, body_ipos := none, body_mass := none, qpos0 := none
    dof_frictionloss := none, dof_armature := none, gravity := none, geom_size := none }

/-- The `in_axes` value built by `domain_randomize`: `tree_map` to `None`
followed by `tree_replace` of the six randomized fields with axis 0. -/
def axis_spec_of (m : MjxModel) : AxisSpec :=
  { tree_map_none m with
    geom_friction := some 0, body_ipos := some 0, body_mass := some 0
    qpos0 := some 0, dof_frictionloss := some 0, dof_armature := some 0 }

/-- The batched model: the six randomized fields gain a leading
environment dimension, all other fields pass through. -/
structure BatchedModel where
  geom_friction : List (List (List ℚ))
  body_ipos : List (List (List ℚ))
  body_mass : List (List ℚ)
  qpos0 : List (List ℚ)
  dof_frictionloss : List (List ℚ)
  dof_armature : List (List ℚ)
  gravity : List ℚ
  geom_size : List (List ℚ)
deriving Repr, DecidableEq

/-- `model.tree_replace({...})` applied to the stacked `vmap` outputs: the
six randomized fields are replaced by their per-environment stacks, every
other field keeps the baseline value. -/
def assembleBatch (m : MjxModel) (results : List EnvResult) : BatchedModel :=
  { geom_friction := results.map (·.geom_friction)
    body_ipos := results.map (·.body_ipos)
    body_mass := results.map (·.body_mass)
    qpos0 := results.map (·.qpos0)
    dof_frictionloss := results.map (·.dof_frictionloss)
    dof_armature := results.map (·.dof_armature)
    gravity := m.gravity
    geom_size := m.geom_size }

/-- `domain_randomize(model, rng)`: `jax.vmap(rand_dynamics)(rng)` followed
by the `in_axes` and `tree_replace` assembly.  `vmap` traces the closure
once with an abstract key — key `0` plays the tracer here, which is
faithful because whether `rand_dynamics` succeeds depends only on the
model's field shapes, never on the key — so a shape error is raised for
every batch size, including the empty batch. -/
def domain_randomize (model : MjxModel) (rng : List Key) :
    Except String (BatchedModel × AxisSpec) :=
  match rand_dynamics model 0 with
  | none => Except.error "shape mismatch"
  | some _ =>
    match rng.mapM (rand_dynamics model) with
    | none => Except.error "shape mismatch"
    | some results => Except.ok (assembleBatch model results, axis_spec_of model)

/-- Whether a model satisfies the input constraints of the spec (§4.1):
12 actuated degrees of freedom after the 6 free-base ones, the matching
19-entry configuration vector, at least two bodies, at least one collision
geometry, and the rectangular 3-column layout of the 2-d fields. -/
def validModel (m : MjxModel) : Bool :=
  decide (m.dof_frictionloss.length = 18) &&
  decide (m.dof_armature.length = 18) &&
  decide (m.qpos0.length = 19) &&
  decide (2 ≤ m.body_mass.length) &&
  decide (m.body_ipos.length = m.body_mass.length) &&
  m.body_ipos.all (fun r => decide (r.length = 3)) &&
  decide (1 ≤ m.geom_friction.length) &&
  m.geom_friction.all (fun r => decide (r.length = 3))

/-- The per-environment procedure as the spec's §4.1 table states it,
written directly from the table: seven steps in fixed order, each
consuming a fresh sub-stream split from the environment's seed; direct
list surgery instead of the JAX array operations. -/
def spec_perturb (m : MjxModel) (k : Key) : EnvResult :=
  { geom_friction :=
      m.geom_friction.set 0
        ((m.geom_friction.getD 0 []).set 0 (uniformScalar (stepKey k 1) 0.4 1.0))
    dof_frictionloss :=
      m.dof_frictionloss.take 6 ++
        List.zipWith (· * ·) (m.dof_frictionloss.drop 6) (uniformVec (stepKey k 2) 12 0.9 1.1)
    dof_armature :=
      m.dof_armature.take 6 ++
        List.zipWith (· * ·) (m.dof_armature.drop 6) (uniformVec (stepKey k 3) 12 1.0 1.05)
    body_ipos :=
      m.body_ipos.set 1
        (List.zipWith (· + ·) (m.body_ipos.getD 1 [])
          (uniformVec (stepKey k 4) 3 (-0.05) 0.05))
    body_mass :=
      let scaled :=
        List.zipWith (· * ·) m.body_mass (uniformVec (stepKey k 5) m.body_mass.length 0.9 1.1)
      scaled.set 1 (scaled.getD 1 0 + uniformScalar (stepKey k 6) (-0.5) 0.5)
    qpos0 :=
      m.qpos0.take 7 ++
        List.zipWith (· + ·) (m.qpos0.drop 7) (uniformVec (stepKey k 7) 12 (-0.05) 0.05) }

/-- Unpacked form of `validModel`. -/
theorem validModel_iff (m : MjxModel) :
    validModel m = true ↔
      m.dof_frictionloss.length = 18 ∧ m.dof_armature.length = 18 ∧
      m.qpos0.length = 19 ∧ 2 ≤ m.body_mass.length ∧
      m.body_ipos.length = m.body_mass.length ∧
      (∀ r ∈ m.body_ipos, r.length = 3) ∧
      1 ≤ m.geom_friction.length ∧
      (∀ r ∈ m.geom_friction, r.length = 3) := by
  simp [validModel, List.all_eq_true, and_assoc]

theorem bcast2_of_length_eq (f : ℚ → ℚ → ℚ) (xs ys : List ℚ)
    (h : xs.length = ys.length) : bcast2 f xs ys = some (List.zipWith f xs ys) := by
  simp [bcast2, h]

theorem setSlice_of_length (xs v : List ℚ) (i : Nat) (h : v.length = xs.length - i) :
    setSlice xs i v = some (xs.take i ++ v) := by
  simp [setSlice, h]

theorem length_uniformVec (k : Key) (n : Nat) (lo hi : ℚ) :
    (uniformVec k n lo hi).length = n := by
  simp [uniformVec]

/-- On a model of valid shape the JAX operations of `rand_dynamics` all
succeed, and the result is exactly the spec's seven-step procedure. -/
theorem rand_dynamics_eq_spec (m : MjxModel) (k : Key) (h : validModel m = true) :
    rand_dynamics m k = some (spec_perturb m k) := by
  obtain ⟨hfl, har, hq, hnb, hiplen, hiprow, hgflen, hgfrow⟩ := (validModel_iff m).mp h
  have hfl6 : (m.dof_frictionloss.drop 6).length = 12 := by simp [hfl]
  have har6 : (m.dof_armature.drop 6).length = 12 := by simp [har]
  have hq7 : (m.qpos0.drop 7).length = 12 := by simp [hq]
  have h2ip : 1 < m.body_ipos.length := by omega
  have hrow : (getRowClip m.body_ipos TORSO_BODY_ID) = m.body_ipos.getD 1 [] := by
    have h1 : min TORSO_BODY_ID (m.body_ipos.length - 1) = 1 := by
      unfold TORSO_BODY_ID
      omega
    unfold getRowClip
    rw [h1]
  have hgd : m.body_ipos.getD 1 [] = m.body_ipos[1] := by
    rw [List.getD_eq_getElem?_getD, List.getElem?_eq_getElem h2ip]
    rfl
  have hrowlen : (m.body_ipos.getD 1 []).length = 3 := by
    rw [hgd]
    exact hiprow _ (List.getElem_mem h2ip)
  have e2 : bmul (m.dof_frictionloss.drop 6)
      (uniformVec (stepKey k 2) 12 DOF_FRICTIONLOSS_SCALE_MIN DOF_FRICTIONLOSS_SCALE_MAX) =
      some (List.zipWith (· * ·) (m.dof_frictionloss.drop 6)
        (uniformVec (stepKey k 2) 12 DOF_FRICTIONLOSS_SCALE_MIN DOF_FRICTIONLOSS_SCALE_MAX)) :=
    bcast2_of_length_eq _ _ _ (by simp [hfl6, length_uniformVec])
  have l2 : (List.zipWith (· * ·) (m.dof_frictionloss.drop 6)
      (uniformVec (stepKey k 2) 12 DOF_FRICTIONLOSS_SCALE_MIN DOF_FRICTIONLOSS_SCALE_MAX)).length
      = m.dof_frictionloss.length - 6 := by
    simp [List.length_zipWith, hfl6, length_uniformVec, hfl]
  have e2' := setSlice_of_length m.dof_frictionloss _ 6 l2
  have e3 : bmul (m.dof_armature.drop 6)
      (uniformVec (stepKey k 3) 12 ARMAUTRE_SCALE_MIN ARMAUTRE_SCALE_MAX) =
      some (List.zipWith (· * ·) (m.dof_armature.drop 6)
        (uniformVec (stepKey k 3) 12 ARMAUTRE_SCALE_MIN ARMAUTRE_SCALE_MAX)) :=
    bcast2_of_length_eq _ _ _ (by simp [har6, length_uniformVec])
  have l3 : (List.zipWith (· * ·) (m.dof_armature.drop 6)
      (uniformVec (stepKey k 3) 12 ARMAUTRE_SCALE_MIN ARMAUTRE_SCALE_MAX)).length
      = m.dof_armature.length - 6 := by
    simp [List.length_zipWith, har6, length_uniformVec, har]
  have e3' := setSlice_of_length m.dof_armature _ 6 l3
  have e4 : badd (getRowClip m.body_ipos TORSO_BODY_ID)
      (uniformVec (stepKey k 4) 3 COM_POS_JITTER_MIN COM_POS_JITTER_MAX) =
      some (List.zipWith (· + ·) (m.body_ipos.getD 1 [])
        (uniformVec (stepKey k 4) 3 COM_POS_JITTER_MIN COM_POS_JITTER_MAX)) := by
    rw [hrow]
    exact bcast2_of_length_eq _ _ _ (by rw [hrowlen, length_uniformVec])
  have e5 : bmul m.body_mass
      (uniformVec (stepKey k 5) m.nbody LINK_MASS_SCALE_MIN LINK_MASS_SCALE_MAX) =
      some (List.zipWith (· * ·) m.body_mass
        (uniformVec (stepKey k 5) m.nbody LINK_MASS_SCALE_MIN LINK_MASS_SCALE_MAX)) :=
    bcast2_of_length_eq _ _ _ (by simp [MjxModel.nbody, length_uniformVec])
  have e7 : badd (m.qpos0.drop 7)
      (uniformVec (stepKey k 7) 12 INIT_QPOS_JITTER_MIN INIT_QPOS_JITTER_MAX) =
      some (List.zipWith (· + ·) (m.qpos0.drop 7)
        (uniformVec (stepKey k 7) 12 INIT_QPOS_JITTER_MIN INIT_QPOS_JITTER_MAX)) :=
    bcast2_of_length_eq _ _ _ (by simp [hq7, length_uniformVec])
  have l7 : (List.zipWith (· + ·) (m.qpos0.drop 7)
      (uniformVec (stepKey k 7) 12 INIT_QPOS_JITTER_MIN INIT_QPOS_JITTER_MAX)).length
      = m.qpos0.length - 7 := by
    simp [List.length_zipWith, hq7, length_uniformVec, hq]
  have e7' := setSlice_of_length m.qpos0 _ 7 l7
  have hclip : getClip (List.zipWith (· * ·) m.body_mass
      (uniformVec (stepKey k 5) m.nbody LINK_MASS_SCALE_MIN LINK_MASS_SCALE_MAX)) TORSO_BODY_ID
      = (List.zipWith (· * ·) m.body_mass
        (uniformVec (stepKey k 5) m.nbody LINK_MASS_SCALE_MIN LINK_MASS_SCALE_MAX)).getD 1 0 := by
    have hlen : (List.zipWith (· * ·) m.body_mass
        (uniformVec (stepKey k 5) m.nbody LINK_MASS_SCALE_MIN LINK_MASS_SCALE_MAX)).length
        = m.body_mass.length := by
      simp [List.length_zipWith, length_uniformVec, MjxModel.nbody]
    have h1 : min TORSO_BODY_ID ((List.zipWith (· * ·) m.body_mass
        (uniformVec (stepKey k 5) m.nbody LINK_MASS_SCALE_MIN LINK_MASS_SCALE_MAX)).length - 1)
        = 1 := by
      unfold TORSO_BODY_ID
      omega
    unfold getClip
    rw [h1]
  have sk1 : (split k).2 = stepKey k 1 := rfl
  have sk2 : (split (split k).1).2 = stepKey k 2 := rfl
  have sk3 : (split (split (split k).1).1).2 = stepKey k 3 := rfl
  have sk4 : (split (split (split (split k).1).1).1).2 = stepKey k 4 := rfl
  have sk5 : (split (split (split (split (split k).1).1).1).1).2 = stepKey k 5 := rfl
  have sk6 : (split (split (split (split (split (split k).1).1).1).1).1).2 = stepKey k 6 := rfl
  have sk7 : (split (split (split (split (split (split (split k).1).1).1).1).1).1).2
      = stepKey k 7 := rfl
  rw [hrow] at e4
  simp only [rand_dynamics, sk1, sk2, sk3, sk4, sk5, sk6, sk7, hrow, e2, e2', e3, e3',
    e4, e5, hclip, e7, e7']
  simp only [spec_perturb, setAt2, FLOOR_GEOM_ID, TORSO_BODY_ID, MjxModel.nbody,
    FLOOR_FRICTION_MIN, FLOOR_FRICTION_MAX, DOF_FRICTIONLOSS_SCALE_MIN,
    DOF_FRICTIONLOSS_SCALE_MAX, ARMAUTRE_SCALE_MIN, ARMAUTRE_SCALE_MAX, COM_POS_JITTER_MIN,
    COM_POS_JITTER_MAX, LINK_MASS_SCALE_MIN, LINK_MASS_SCALE_MAX, ADDED_MASS_MIN,
    ADDED_MASS_MAX, INIT_QPOS_JITTER_MIN, INIT_QPOS_JITTER_MAX]

theorem mapM_eq_map_of_forall_some {α β : Type} (f : α → Option β) (g : α → β)
    (l : List α) (h : ∀ a, f a = some (g a)) : l.mapM f = some (l.map g) := by
  induction l with
  | nil => rfl
  | cons x xs ih =>
    rw [List.mapM_cons, h x, ih]
    rfl

/-- On a model of valid shape, `domain_randomize` succeeds and its output
is the stacked spec procedure applied to the seeds in order, together with
the fixed axis descriptor. -/
theorem domain_randomize_ok (m : MjxModel) (seeds : List Key) (h : validModel m = true) :
    domain_randomize m seeds =
      Except.ok (assembleBatch m (seeds.map (spec_perturb m)), axis_spec_of m) := by
  unfold domain_randomize
  rw [rand_dynamics_eq_spec m 0 h,
    mapM_eq_map_of_forall_some (rand_dynamics m) (spec_perturb m) seeds
      (fun a => rand_dynamics_eq_spec m a h)]

/-- A shape error in step 2 (fewer or more than 12 leg degrees of freedom
in `dof_frictionloss`) makes `rand_dynamics` fail for every key. -/
theorem rand_dynamics_none_of_bad_nv (m : MjxModel) (k : Key)
    (h : m.dof_frictionloss.length ≠ 18) : rand_dynamics m k = none := by
  have h12 : (m.dof_frictionloss.drop 6).length ≠ 12 := by simp; omega
  by_cases h1 : (m.dof_frictionloss.drop 6).length = 1
  · have e : bmul (m.dof_frictionloss.drop 6)
        (uniformVec ((split (split k).1).2) 12 DOF_FRICTIONLOSS_SCALE_MIN
          DOF_FRICTIONLOSS_SCALE_MAX) =
        some ((uniformVec ((split (split k).1).2) 12 DOF_FRICTIONLOSS_SCALE_MIN
          DOF_FRICTIONLOSS_SCALE_MAX).map
            (fun y => (m.dof_frictionloss.drop 6).getD 0 0 * y)) := by
      unfold bmul bcast2
      rw [if_neg (by rw [h1, length_uniformVec]; omega), if_pos h1]
    have e2 : setSlice m.dof_frictionloss 6
        ((uniformVec ((split (split k).1).2) 12 DOF_FRICTIONLOSS_SCALE_MIN
          DOF_FRICTIONLOSS_SCALE_MAX).map
            (fun y => (m.dof_frictionloss.drop 6).getD 0 0 * y)) = none := by
      unfold setSlice
      have hl : m.dof_frictionloss.length - 6 = 1 := by simp at h1; omega
      rw [if_neg (by simp [uniformVec]; omega), if_neg (by simp [uniformVec])]
    simp only [rand_dynamics, e, e2]
  · have e : bmul (m.dof_frictionloss.drop 6)
        (uniformVec ((split (split k).1).2) 12 DOF_FRICTIONLOSS_SCALE_MIN
          DOF_FRICTIONLOSS_SCALE_MAX) = none := by
      unfold bmul bcast2
      rw [if_neg (by rw [length_uniformVec]; omega), if_neg h1,
        if_neg (by rw [length_uniformVec]; omega)]
    simp only [rand_dynamics, e]

/-- Shape errors propagate: `domain_randomize` rejects the call for every
seed batch (including the empty one) when the leg-DOF layout is absent. -/
theorem domain_randomize_error_of_bad_nv (m : MjxModel) (seeds : List Key)
    (h : m.dof_frictionloss.length ≠ 18) :
    domain_randomize m seeds = Except.error "shape mismatch" := by
  unfold domain_randomize
  rw [rand_dynamics_none_of_bad_nv m 0 h]

/-- A small valid baseline: 2 collision geometries, 4 bodies, the free
base joint (6 degrees of freedom, 7 configuration entries) plus 12 leg
degrees of freedom. -/
def sampleModel : MjxModel :=
  { geom_friction := [[0.8, 0.02, 0.01], [0.9, 0.02, 0.01]]
    body_ipos := [[0, 0, 0], [0.01, 0, 0.02], [0, 0, 0.1], [0.02, 0, 0]]
    body_mass := [0, 2.5, 0.5, 0.25]
    qpos0 := [0, 0, 0.3, 1, 0, 0, 0, 0.1, 0.2, 0.3, 0.1, 0.2, 0.3, 0.1, 0.2, 0.3, 0.1, 0.2, 0.3]
    dof_frictionloss := [0, 0, 0, 0, 0, 0, 0.01, 0.01, 0.01, 0.01, 0.01, 0.01, 0.01, 0.01, 0.01,
      0.01, 0.01, 0.01]
    dof_armature := [0, 0, 0, 0, 0, 0, 0.005, 0.005, 0.005, 0.005, 0.005, 0.005, 0.005, 0.005,
      0.005, 0.005, 0.005, 0.005]
    gravity := [0, 0, -9.81]
    geom_size := [[1, 1, 0.05], [0.05, 0.1, 0.2]] }

/-- A model with the leg-DOF layout intact but only one body: the torso
index 1 is out of bounds for its body arrays. -/
def oneBodyModel : MjxModel :=
  { sampleModel with
    body_ipos := [[0, 0, 0]]
    body_mass := [1] }

/-- A model whose `dof_frictionloss` does not have the 6 + 12 layout. -/
def shortDofModel : MjxModel :=
  { sampleModel with dof_frictionloss := [0, 0, 0, 0, 0, 0, 0.01, 0.01] }

/-- Reconstruct batch slice `j` of the output (one environment's model
fields); `none` when `j` is outside the batch. -/
def batchSlice (b : BatchedModel) (j : Nat) : Option EnvResult :=
  match b.geom_friction[j]?, b.body_ipos[j]?, b.body_mass[j]?,
      b.qpos0[j]?, b.dof_frictionloss[j]?, b.dof_armature[j]? with
  | some a, some c, some d, some e, some f, some g =>
      some { geom_friction := a, body_ipos := c, body_mass := d, qpos0 := e,
             dof_frictionloss := f, dof_armature := g }
  | _, _, _, _, _, _ => none

theorem batchSlice_assemble (m : MjxModel) (rs : List EnvResult) (j : Nat) :
    batchSlice (assembleBatch m rs) j = rs[j]? := by
  unfold batchSlice assembleBatch
  cases hj : rs[j]? with
  | none => simp [List.getElem?_map, hj]
  | some r => simp [List.getElem?_map, hj]

theorem unitQ_nonneg (k i : Nat) : 0 ≤ unitQ k i := by
  unfold unitQ
  positivity

theorem unitQ_lt_one (k i : Nat) : unitQ k i < 1 := by
  unfold unitQ
  rw [div_lt_one (by norm_num)]
  exact_mod_cast Nat.mod_lt _ (by norm_num)

theorem uniformScalar_mem (k : Key) (lo hi : ℚ) (h : lo ≤ hi) :
    lo ≤ uniformScalar k lo hi ∧ uniformScalar k lo hi ≤ hi := by
  unfold uniformScalar
  constructor
  · nlinarith [unitQ_nonneg k 0]
  · nlinarith [unitQ_lt_one k 0, unitQ_nonneg k 0]

theorem uniformVec_getD (k : Key) (n : Nat) (lo hi : ℚ) (i : Nat) (h : i < n) :
    (uniformVec k n lo hi).getD i 0 = lo + (hi - lo) * unitQ k i := by
  simp [uniformVec, List.getD_eq_getElem?_getD, List.getElem?_map, List.getElem?_range h]

theorem uniformVec_getD_mem (k : Key) (n : Nat) (lo hi : ℚ) (i : Nat)
    (h : lo ≤ hi) (hn : i < n) :
    lo ≤ (uniformVec k n lo hi).getD i 0 ∧ (uniformVec k n lo hi).getD i 0 ≤ hi := by
  rw [uniformVec_getD k n lo hi i hn]
  constructor
  · nlinarith [unitQ_nonneg k i]
  · nlinarith [unitQ_lt_one k i, unitQ_nonneg k i]

/-- Inversion: a successful call always returns a stacked `vmap` result
and the fixed axis descriptor. -/
theorem domain_randomize_ok_inv (m : MjxModel) (seeds : List Key) (b : BatchedModel)
    (ax : AxisSpec) (h : domain_randomize m seeds = Except.ok (b, ax)) :
    ∃ rs, seeds.mapM (rand_dynamics m) = some rs ∧
      b = assembleBatch m rs ∧ ax = axis_spec_of m := by
  unfold domain_randomize at h
  cases h0 : rand_dynamics m 0 with
  | none => rw [h0] at h; exact absurd h (by simp)
  | some r =>
    rw [h0] at h
    cases hm : seeds.mapM (rand_dynamics m) with
    | none => rw [hm] at h; exact absurd h (by simp)
    | some rs =>
      rw [hm] at h
      simp only [Except.ok.injEq, Prod.mk.injEq] at h
      exact ⟨rs, rfl, h.1.symm, h.2.symm⟩

/-- C1: for every valid baseline model and every seed, the
per-environment output of `domain_randomize` is exactly the seven §4.1
perturbation steps applied in their fixed order, each step consuming a
fresh sub-stream split from that environment's seed (`spec_perturb`,
written from the spec's table), batch slices in seed order. -/
theorem C1_seven_step_procedure (m : MjxModel) (seeds : List Key)
    (h : validModel m = true) :
    domain_randomize m seeds =
      Except.ok (assembleBatch m (seeds.map (spec_perturb m)), axis_spec_of m) ∧
    (∀ b ax, domain_randomize m seeds = Except.ok (b, ax) →
      ∀ i, batchSlice b i = (seeds[i]?).map (spec_perturb m)) := by
  refine ⟨domain_randomize_ok m seeds h, fun b ax hok i => ?_⟩
  rw [domain_randomize_ok m seeds h] at hok
  simp only [Except.ok.injEq, Prod.mk.injEq] at hok
  rw [← hok.1, batchSlice_assemble, List.getElem?_map]

/-- C1 witness at a concrete model and seed batch. -/
theorem C1_seven_step_procedure_witness :
    validModel sampleModel = true ∧
    (domain_randomize sampleModel [5] =
      Except.ok (assembleBatch sampleModel ([5].map (spec_perturb sampleModel)),
        axis_spec_of sampleModel) ∧
    (∀ b ax, domain_randomize sampleModel [5] = Except.ok (b, ax) →
      ∀ i, batchSlice b i = (([5] : List Key)[i]?).map (spec_perturb sampleModel))) :=
  ⟨by decide, C1_seven_step_procedure sampleModel [5] (by decide)⟩

/-- C2 is false as stated: on a valid model the empty seed batch is not
rejected (JAX `vmap` over a zero-length batch succeeds with empty
outputs), and a model with a single body — inconsistent with the torso
index 1 — is not rejected either (the out-of-bounds torso read is clamped
and the update dropped). -/
theorem C2_counterexample :
    (domain_randomize sampleModel []).toBool = true ∧
    (domain_randomize oneBodyModel [3]).toBool = true := by
  decide

/-- C2 amended: a model without the 6 + 12 leg degree-of-freedom layout is
rejected with a shape-mismatch error for every seed batch (even the empty
one); every valid model succeeds for every seed batch, including the empty
one. -/
theorem C2_amended_failure_model :
    (∀ m seeds, validModel m = true → (domain_randomize m seeds).toBool = true) ∧
    (∀ (m : MjxModel) seeds, m.dof_frictionloss.length ≠ 18 →
      (domain_randomize m seeds).toBool = false) ∧
    (∀ m, validModel m = true → (domain_randomize m []).toBool = true) := by
  refine ⟨fun m seeds h => ?_, fun m seeds h => ?_, fun m h => ?_⟩
  · rw [domain_randomize_ok m seeds h]; rfl
  · rw [domain_randomize_error_of_bad_nv m seeds h]; rfl
  · rw [domain_randomize_ok m [] h]; rfl

/-- C2 amended, witness at concrete inputs. -/
theorem C2_amended_failure_model_witness :
    validModel sampleModel = true ∧
    (domain_randomize sampleModel [1, 2]).toBool = true ∧
    (domain_randomize shortDofModel [1, 2]).toBool = false :=
  ⟨by decide, C2_amended_failure_model.1 sampleModel [1, 2] (by decide),
    C2_amended_failure_model.2.1 shortDofModel [1, 2] (by decide)⟩

/-- C3: the returned axis descriptor marks exactly the six randomization
targets as batched along dimension 0, every other field as not batched,
has the model's field-set, and does not depend on the seeds. -/
theorem C3_axis_descriptor (m : MjxModel) (seeds : List Key) (b : BatchedModel)
    (ax : AxisSpec) (h : domain_randomize m seeds = Except.ok (b, ax)) :
    ax = axis_spec_of m ∧
    ax.geom_friction = some 0 ∧ ax.dof_frictionloss = some 0 ∧ ax.dof_armature = some 0 ∧
    ax.body_ipos = some 0 ∧ ax.body_mass = some 0 ∧ ax.qpos0 = some 0 ∧
    ax.gravity = none ∧ ax.geom_size = none := by
  obtain ⟨rs, -, -, rfl⟩ := domain_randomize_ok_inv m seeds b ax h
  exact ⟨rfl, rfl, rfl, rfl, rfl, rfl, rfl, rfl, rfl⟩

/-- C3 witness at a concrete call. -/
theorem C3_axis_descriptor_witness :
    axis_spec_of sampleModel = axis_spec_of sampleModel ∧
    (axis_spec_of sampleModel).geom_friction = some 0 ∧
    (axis_spec_of sampleModel).dof_frictionloss = some 0 ∧
    (axis_spec_of sampleModel).dof_armature = some 0 ∧
    (axis_spec_of sampleModel).body_ipos = some 0 ∧
    (axis_spec_of sampleModel).body_mass = some 0 ∧
    (axis_spec_of sampleModel).qpos0 = some 0 ∧
    (axis_spec_of sampleModel).gravity = none ∧
    (axis_spec_of sampleModel).geom_size = none :=
  C3_axis_descriptor sampleModel [7]
    (assembleBatch sampleModel ([7].map (spec_perturb sampleModel)))
    (axis_spec_of sampleModel) (domain_randomize_ok sampleModel [7] (by decide))

/-- C4: `domain_randomize` is a pure function of the baseline model and
the seed batch: equal inputs give bit-identical outputs (batched model and
axis descriptor alike); there is no hidden state. -/
theorem C4_deterministic (m1 m2 : MjxModel) (s1 s2 : List Key)
    (hm : m1 = m2) (hs : s1 = s2) :
    domain_randomize m1 s1 = domain_randomize m2 s2 := by
  rw [hm, hs]

/-- C4 witness: two identical concrete calls agree. -/
theorem C4_deterministic_witness :
    domain_randomize sampleModel [1, 2] = domain_randomize sampleModel [1, 2] :=
  C4_deterministic sampleModel sampleModel [1, 2] [1, 2] rfl rfl

/-- C6: every model field outside the §4.1 randomization table is returned
unmodified, equal to the baseline value (the input model itself is never
mutated: the embedding is purely functional, as is the JAX source, whose
arrays are immutable). -/
theorem C6_pass_through (m : MjxModel) (seeds : List Key) (b : BatchedModel)
    (ax : AxisSpec) (h : domain_randomize m seeds = Except.ok (b, ax)) :
    b.gravity = m.gravity ∧ b.geom_size = m.geom_size := by
  obtain ⟨rs, -, rfl, -⟩ := domain_randomize_ok_inv m seeds b ax h
  exact ⟨rfl, rfl⟩

/-- C6 witness at a concrete call. -/
theorem C6_pass_through_witness :
    (assembleBatch sampleModel ([4, 9].map (spec_perturb sampleModel))).gravity
      = sampleModel.gravity ∧
    (assembleBatch sampleModel ([4, 9].map (spec_perturb sampleModel))).geom_size
      = sampleModel.geom_size :=
  C6_pass_through sampleModel [4, 9]
    (assembleBatch sampleModel ([4, 9].map (spec_perturb sampleModel)))
    (axis_spec_of sampleModel) (domain_randomize_ok sampleModel [4, 9] (by decide))

/-- C5: batch slices are mutually independent: two seed batches of the
same length that agree away from position `i` produce outputs that are
bit-identical in every slice other than `i`, and slice `i` is a function
of seed `i` and the baseline model alone. -/
theorem C5_batch_independence (m : MjxModel) (s t : List Key) (i : Nat)
    (hm : validModel m = true) (hlen : s.length = t.length)
    (hdiff : ∀ j < s.length, j ≠ i → s[j]? = t[j]?) :
    ∀ bs axs bt axt, domain_randomize m s = Except.ok (bs, axs) →
      domain_randomize m t = Except.ok (bt, axt) →
      (∀ j, j ≠ i → batchSlice bs j = batchSlice bt j) ∧
      batchSlice bs i = (s[i]?).map (spec_perturb m) := by
  intro bs axs bt axt hs ht
  rw [domain_randomize_ok m s hm] at hs
  rw [domain_randomize_ok m t hm] at ht
  simp only [Except.ok.injEq, Prod.mk.injEq] at hs ht
  refine ⟨fun j hj => ?_, ?_⟩
  · rw [← hs.1, ← ht.1, batchSlice_assemble, batchSlice_assemble,
      List.getElem?_map, List.getElem?_map]
    by_cases hjs : j < s.length
    · rw [hdiff j hjs hj]
    · rw [List.getElem?_eq_none (by omega), List.getElem?_eq_none (by omega)]
  · rw [← hs.1, batchSlice_assemble, List.getElem?_map]

/-- C5 witness: seed batches differing only at position 1. -/
theorem C5_batch_independence_witness :
    validModel sampleModel = true ∧
    ([1, 2, 3] : List Key).length = ([1, 9, 3] : List Key).length ∧
    (∀ j < ([1, 2, 3] : List Key).length, j ≠ 1 →
      ([1, 2, 3] : List Key)[j]? = ([1, 9, 3] : List Key)[j]?) ∧
    (∀ bs axs bt axt, domain_randomize sampleModel [1, 2, 3] = Except.ok (bs, axs) →
      domain_randomize sampleModel [1, 9, 3] = Except.ok (bt, axt) →
      (∀ j, j ≠ 1 → batchSlice bs j = batchSlice bt j) ∧
      batchSlice bs 1 = (([1, 2, 3] : List Key)[1]?).map (spec_perturb sampleModel)) :=
  ⟨by decide, by decide, by decide,
    C5_batch_independence sampleModel [1, 2, 3] [1, 9, 3] 1 (by decide) (by decide) (by decide)⟩

theorem getD_set_self {α : Type} (l : List α) (i : Nat) (a d : α) (h : i < l.length) :
    (l.set i a).getD i d = a := by
  simp [List.getD_eq_getElem?_getD, List.getElem?_set_self h]

theorem getD_set_ne {α : Type} (l : List α) (i j : Nat) (a d : α) (h : i ≠ j) :
    (l.set i a).getD j d = l.getD j d := by
  simp [List.getD_eq_getElem?_getD, List.getElem?_set_ne h]

theorem getD_takeAppend (xs z : List ℚ) (n i : Nat) (hn : n ≤ xs.length) (hi : n ≤ i) :
    (xs.take n ++ z).getD i 0 = z.getD (i - n) 0 := by
  have hlen : (xs.take n).length = n := by
    simp [List.length_take]
    omega
  rw [List.getD_eq_getElem?_getD, List.getD_eq_getElem?_getD,
    List.getElem?_append_right (by rw [hlen]; exact hi), hlen]

theorem getD_zipWith (f : ℚ → ℚ → ℚ) (as bs : List ℚ) (i : Nat)
    (ha : i < as.length) (hb : i < bs.length) :
    (List.zipWith f as bs).getD i 0 = f (as.getD i 0) (bs.getD i 0) := by
  simp [List.getD_eq_getElem?_getD, List.getElem?_zipWith,
    List.getElem?_eq_getElem ha, List.getElem?_eq_getElem hb]

theorem spec_perturb_geom_friction (m : MjxModel) (k : Key) :
    (spec_perturb m k).geom_friction =
      m.geom_friction.set 0
        ((m.geom_friction.getD 0 []).set 0 (uniformScalar (stepKey k 1) 0.4 1.0)) := rfl

theorem spec_perturb_dof_frictionloss (m : MjxModel) (k : Key) :
    (spec_perturb m k).dof_frictionloss =
      m.dof_frictionloss.take 6 ++
        List.zipWith (· * ·) (m.dof_frictionloss.drop 6)
          (uniformVec (stepKey k 2) 12 0.9 1.1) := rfl

theorem spec_perturb_dof_armature (m : MjxModel) (k : Key) :
    (spec_perturb m k).dof_armature =
      m.dof_armature.take 6 ++
        List.zipWith (· * ·) (m.dof_armature.drop 6)
          (uniformVec (stepKey k 3) 12 1.0 1.05) := rfl

theorem spec_perturb_body_ipos (m : MjxModel) (k : Key) :
    (spec_perturb m k).body_ipos =
      m.body_ipos.set 1
        (List.zipWith (· + ·) (m.body_ipos.getD 1 [])
          (uniformVec (stepKey k 4) 3 (-0.05) 0.05)) := rfl

theorem spec_perturb_body_mass (m : MjxModel) (k : Key) :
    (spec_perturb m k).body_mass =
      (List.zipWith (· * ·) m.body_mass
          (uniformVec (stepKey k 5) m.body_mass.length 0.9 1.1)).set 1
        ((List.zipWith (· * ·) m.body_mass
            (uniformVec (stepKey k 5) m.body_mass.length 0.9 1.1)).getD 1 0 +
          uniformScalar (stepKey k 6) (-0.5) 0.5) := rfl

theorem spec_perturb_qpos0 (m : MjxModel) (k : Key) :
    (spec_perturb m k).qpos0 =
      m.qpos0.take 7 ++
        List.zipWith (· + ·) (m.qpos0.drop 7)
          (uniformVec (stepKey k 7) 12 (-0.05) 0.05) := rfl

/-- A defined batch slice of a successful call is the spec procedure
applied to the corresponding seed. -/
theorem slice_of_ok (m : MjxModel) (seeds : List Key) (b : BatchedModel)
    (ax : AxisSpec) (i : Nat) (r : EnvResult)
    (hm : validModel m = true)
    (h : domain_randomize m seeds = Except.ok (b, ax))
    (hs : batchSlice b i = some r) :
    ∃ k, seeds[i]? = some k ∧ r = spec_perturb m k := by
  rw [domain_randomize_ok m seeds hm] at h
  simp only [Except.ok.injEq, Prod.mk.injEq] at h
  rw [← h.1, batchSlice_assemble, List.getElem?_map] at hs
  cases hk : seeds[i]? with
  | none =>
    rw [hk] at hs
    exact Option.noConfusion hs
  | some k =>
    rw [hk] at hs
    exact ⟨k, rfl, (Option.some.inj hs).symm⟩

/-- C7: inside the randomized fields, the untouched sub-ranges are
preserved in every batch slice: the 6 free-base entries of
`dof_frictionloss` and `dof_armature`, the 7 base entries of `qpos0`, all
of `geom_friction` except the ground geometry's primary coefficient
`[0][0]`, and every `body_ipos` row except the torso's (index 1). -/
theorem C7_subfield_preservation (m : MjxModel) (seeds : List Key) (b : BatchedModel)
    (ax : AxisSpec) (i : Nat) (r : EnvResult)
    (hm : validModel m = true)
    (h : domain_randomize m seeds = Except.ok (b, ax))
    (hs : batchSlice b i = some r) :
    r.dof_frictionloss.take 6 = m.dof_frictionloss.take 6 ∧
    r.dof_armature.take 6 = m.dof_armature.take 6 ∧
    r.qpos0.take 7 = m.qpos0.take 7 ∧
    (∀ g, g ≠ 0 → r.geom_friction[g]? = m.geom_friction[g]?) ∧
    (∀ j, j ≠ 0 →
      (r.geom_friction.getD 0 []).getD j 0 = (m.geom_friction.getD 0 []).getD j 0) ∧
    (∀ p, p ≠ 1 → r.body_ipos[p]? = m.body_ipos[p]?) := by
  obtain ⟨hfl, har, hq, hnb, hiplen, hiprow, hgflen, hgfrow⟩ := (validModel_iff m).mp hm
  obtain ⟨k, -, rfl⟩ := slice_of_ok m seeds b ax i r hm h hs
  refine ⟨?_, ?_, ?_, ?_, ?_, ?_⟩
  · rw [spec_perturb_dof_frictionloss,
      List.take_append_of_le_length (by simp [List.length_take]; omega)]
    simp [List.take_take]
  · rw [spec_perturb_dof_armature,
      List.take_append_of_le_length (by simp [List.length_take]; omega)]
    simp [List.take_take]
  · rw [spec_perturb_qpos0,
      List.take_append_of_le_length (by simp [List.length_take]; omega)]
    simp [List.take_take]
  · intro g hg
    rw [spec_perturb_geom_friction, List.getElem?_set_ne (by omega)]
  · intro j hj
    rw [spec_perturb_geom_friction, getD_set_self _ _ _ _ (by omega),
      getD_set_ne _ _ _ _ _ (by omega)]
  · intro p hp
    rw [spec_perturb_body_ipos, List.getElem?_set_ne (by omega)]

/-- C7 witness at a concrete model, seed batch and slice. -/
theorem C7_subfield_preservation_witness :
    (spec_perturb sampleModel 5).dof_frictionloss.take 6
      = sampleModel.dof_frictionloss.take 6 ∧
    (spec_perturb sampleModel 5).dof_armature.take 6 = sampleModel.dof_armature.take 6 ∧
    (spec_perturb sampleModel 5).qpos0.take 7 = sampleModel.qpos0.take 7 ∧
    (∀ g, g ≠ 0 →
      (spec_perturb sampleModel 5).geom_friction[g]? = sampleModel.geom_friction[g]?) ∧
    (∀ j, j ≠ 0 →
      ((spec_perturb sampleModel 5).geom_friction.getD 0 []).getD j 0
        = (sampleModel.geom_friction.getD 0 []).getD j 0) ∧
    (∀ p, p ≠ 1 →
      (spec_perturb sampleModel 5).body_ipos[p]? = sampleModel.body_ipos[p]?) :=
  C7_subfield_preservation sampleModel [5]
    (assembleBatch sampleModel ([5].map (spec_perturb sampleModel)))
    (axis_spec_of sampleModel) 0 (spec_perturb sampleModel 5) (by decide)
    (domain_randomize_ok sampleModel [5] (by decide))
    (by rw [batchSlice_assemble]; rfl)

/-- C9: the batched output has leading dimension exactly the number of
seeds on every randomized field (no partial results), and each slice's
trailing shape equals the baseline's corresponding field shape. -/
theorem C9_shape_invariance (m : MjxModel) (seeds : List Key) (b : BatchedModel)
    (ax : AxisSpec) (hm : validModel m = true)
    (h : domain_randomize m seeds = Except.ok (b, ax)) :
    (b.geom_friction.length = seeds.length ∧ b.body_ipos.length = seeds.length ∧
      b.body_mass.length = seeds.length ∧ b.qpos0.length = seeds.length ∧
      b.dof_frictionloss.length = seeds.length ∧ b.dof_armature.length = seeds.length) ∧
    (∀ i r, batchSlice b i = some r →
      r.geom_friction.length = m.geom_friction.length ∧
      (∀ j, (r.geom_friction.getD j []).length = (m.geom_friction.getD j []).length) ∧
      r.body_ipos.length = m.body_ipos.length ∧
      (∀ j, (r.body_ipos.getD j []).length = (m.body_ipos.getD j []).length) ∧
      r.body_mass.length = m.body_mass.length ∧
      r.qpos0.length = m.qpos0.length ∧
      r.dof_frictionloss.length = m.dof_frictionloss.length ∧
      r.dof_armature.length = m.dof_armature.length) := by
  obtain ⟨hfl, har, hq, hnb, hiplen, hiprow, hgflen, hgfrow⟩ := (validModel_iff m).mp hm
  have hb := h
  rw [domain_randomize_ok m seeds hm] at hb
  simp only [Except.ok.injEq, Prod.mk.injEq] at hb
  constructor
  · rw [← hb.1]
    simp [assembleBatch]
  · intro i r hs
    obtain ⟨k, -, rfl⟩ := slice_of_ok m seeds b ax i r hm h hs
    have hrowlen : (m.body_ipos.getD 1 []).length = 3 := by
      have h2ip : 1 < m.body_ipos.length := by omega
      rw [List.getD_eq_getElem?_getD, List.getElem?_eq_getElem h2ip]
      exact hiprow _ (List.getElem_mem h2ip)
    refine ⟨?_, ?_, ?_, ?_, ?_, ?_, ?_, ?_⟩
    · rw [spec_perturb_geom_friction, List.length_set]
    · intro j
      by_cases hj : j = 0
      · subst hj
        rw [spec_perturb_geom_friction, getD_set_self _ _ _ _ (by omega), List.length_set]
      · rw [spec_perturb_geom_friction, getD_set_ne _ _ _ _ _ (by omega)]
    · rw [spec_perturb_body_ipos, List.length_set]
    · intro j
      by_cases hj : j = 1
      · subst hj
        rw [spec_perturb_body_ipos, getD_set_self _ _ _ _ (by omega)]
        simp [List.length_zipWith, length_uniformVec]
        rw [List.getD_eq_getElem?_getD] at hrowlen
        omega
      · rw [spec_perturb_body_ipos, getD_set_ne _ _ _ _ _ (by omega)]
    · rw [spec_perturb_body_mass, List.length_set]
      simp [List.length_zipWith, length_uniformVec]
    · rw [spec_perturb_qpos0]
      simp [List.length_take, List.length_zipWith, length_uniformVec]
      omega
    · rw [spec_perturb_dof_frictionloss]
      simp [List.length_take, List.length_zipWith, length_uniformVec]
      omega
    · rw [spec_perturb_dof_armature]
      simp [List.length_take, List.length_zipWith, length_uniformVec]
      omega

/-- C9 witness at a concrete model and a two-seed batch. -/
theorem C9_shape_invariance_witness :
    ((assembleBatch sampleModel ([4, 9].map (spec_perturb sampleModel))).geom_friction.length
        = ([4, 9] : List Key).length ∧
      (assembleBatch sampleModel ([4, 9].map (spec_perturb sampleModel))).body_ipos.length
        = ([4, 9] : List Key).length ∧
      (assembleBatch sampleModel ([4, 9].map (spec_perturb sampleModel))).body_mass.length
        = ([4, 9] : List Key).length ∧
      (assembleBatch sampleModel ([4, 9].map (spec_perturb sampleModel))).qpos0.length
        = ([4, 9] : List Key).length ∧
      (assembleBatch sampleModel
          ([4, 9].map (spec_perturb sampleModel))).dof_frictionloss.length
        = ([4, 9] : List Key).length ∧
      (assembleBatch sampleModel ([4, 9].map (spec_perturb sampleModel))).dof_armature.length
        = ([4, 9] : List Key).length) ∧
    (∀ i r,
      batchSlice (assembleBatch sampleModel ([4, 9].map (spec_perturb sampleModel))) i
        = some r →
      r.geom_friction.length = sampleModel.geom_friction.length ∧
      (∀ j, (r.geom_friction.getD j []).length
        = (sampleModel.geom_friction.getD j []).length) ∧
      r.body_ipos.length = sampleModel.body_ipos.length ∧
      (∀ j, (r.body_ipos.getD j []).length = (sampleModel.body_ipos.getD j []).length) ∧
      r.body_mass.length = sampleModel.body_mass.length ∧
      r.qpos0.length = sampleModel.qpos0.length ∧
      r.dof_frictionloss.length = sampleModel.dof_frictionloss.length ∧
      r.dof_armature.length = sampleModel.dof_armature.length) :=
  C9_shape_invariance sampleModel [4, 9]
    (assembleBatch sampleModel ([4, 9].map (spec_perturb sampleModel)))
    (axis_spec_of sampleModel) (by decide)
    (domain_randomize_ok sampleModel [4, 9] (by decide))

/-- C8: in every batch slice every sampled value lies in its declared
closed interval: the ground-friction value in [0.4, 1.0]; each
friction-loss scale in [0.9, 1.1]; each armature scale in [1.0, 1.05];
each torso center-of-mass jitter in [-0.05, 0.05]; each body-mass scale in
[0.9, 1.1]; the torso additive mass delta in [-0.5, 0.5]; each initial
configuration jitter in [-0.05, 0.05]. -/
theorem C8_range_containment (m : MjxModel) (seeds : List Key) (b : BatchedModel)
    (ax : AxisSpec) (i : Nat) (r : EnvResult)
    (hm : validModel m = true)
    (h : domain_randomize m seeds = Except.ok (b, ax))
    (hs : batchSlice b i = some r) :
    (FLOOR_FRICTION_MIN ≤ (r.geom_friction.getD 0 []).getD 0 0 ∧
      (r.geom_friction.getD 0 []).getD 0 0 ≤ FLOOR_FRICTION_MAX) ∧
    (∀ d, 6 ≤ d → d < 18 → ∃ c, DOF_FRICTIONLOSS_SCALE_MIN ≤ c ∧
      c ≤ DOF_FRICTIONLOSS_SCALE_MAX ∧
      r.dof_frictionloss.getD d 0 = m.dof_frictionloss.getD d 0 * c) ∧
    (∀ d, 6 ≤ d → d < 18 → ∃ c, ARMAUTRE_SCALE_MIN ≤ c ∧ c ≤ ARMAUTRE_SCALE_MAX ∧
      r.dof_armature.getD d 0 = m.dof_armature.getD d 0 * c) ∧
    (∀ j, j < 3 → ∃ d, COM_POS_JITTER_MIN ≤ d ∧ d ≤ COM_POS_JITTER_MAX ∧
      (r.body_ipos.getD 1 []).getD j 0 = (m.body_ipos.getD 1 []).getD j 0 + d) ∧
    (∀ p, p < m.body_mass.length → p ≠ 1 → ∃ c, LINK_MASS_SCALE_MIN ≤ c ∧
      c ≤ LINK_MASS_SCALE_MAX ∧ r.body_mass.getD p 0 = m.body_mass.getD p 0 * c) ∧
    (∃ c d, LINK_MASS_SCALE_MIN ≤ c ∧ c ≤ LINK_MASS_SCALE_MAX ∧
      ADDED_MASS_MIN ≤ d ∧ d ≤ ADDED_MASS_MAX ∧
      r.body_mass.getD 1 0 = m.body_mass.getD 1 0 * c + d) ∧
    (∀ q, 7 ≤ q → q < 19 → ∃ d, INIT_QPOS_JITTER_MIN ≤ d ∧ d ≤ INIT_QPOS_JITTER_MAX ∧
      r.qpos0.getD q 0 = m.qpos0.getD q 0 + d) := by
  obtain ⟨hfl, har, hq, hnb, hiplen, hiprow, hgflen, hgfrow⟩ := (validModel_iff m).mp hm
  obtain ⟨k, -, rfl⟩ := slice_of_ok m seeds b ax i r hm h hs
  have hrowlen : (m.body_ipos.getD 1 []).length = 3 := by
    have h2ip : 1 < m.body_ipos.length := by omega
    rw [List.getD_eq_getElem?_getD, List.getElem?_eq_getElem h2ip]
    exact hiprow _ (List.getElem_mem h2ip)
  have hgrow0 : (m.geom_friction.getD 0 []).length = 3 := by
    have h0 : 0 < m.geom_friction.length := hgflen
    rw [List.getD_eq_getElem?_getD, List.getElem?_eq_getElem h0]
    exact hgfrow _ (List.getElem_mem h0)
  refine ⟨?_, ?_, ?_, ?_, ?_, ?_, ?_⟩
  · rw [spec_perturb_geom_friction, getD_set_self _ _ _ _ (by omega),
      getD_set_self _ _ _ _ (by omega)]
    exact uniformScalar_mem (stepKey k 1) 0.4 1.0 (by norm_num)
  · intro d hd1 hd2
    refine ⟨(uniformVec (stepKey k 2) 12 0.9 1.1).getD (d - 6) 0,
      (uniformVec_getD_mem _ 12 _ _ (d - 6) (by norm_num [DOF_FRICTIONLOSS_SCALE_MIN]) (by omega)).1,
      (uniformVec_getD_mem _ 12 _ _ (d - 6) (by norm_num [DOF_FRICTIONLOSS_SCALE_MAX]) (by omega)).2, ?_⟩
    rw [spec_perturb_dof_frictionloss, getD_takeAppend _ _ 6 d (by omega) hd1,
      getD_zipWith _ _ _ _ (by simp [hfl]; omega) (by rw [length_uniformVec]; omega)]
    congr 1
    rw [List.getD_eq_getElem?_getD, List.getD_eq_getElem?_getD, List.getElem?_drop]
    congr 2
    omega
  · intro d hd1 hd2
    refine ⟨(uniformVec (stepKey k 3) 12 1.0 1.05).getD (d - 6) 0,
      (uniformVec_getD_mem _ 12 _ _ (d - 6) (by norm_num [ARMAUTRE_SCALE_MIN]) (by omega)).1,
      (uniformVec_getD_mem _ 12 _ _ (d - 6) (by norm_num [ARMAUTRE_SCALE_MAX]) (by omega)).2, ?_⟩
    rw [spec_perturb_dof_armature, getD_takeAppend _ _ 6 d (by omega) hd1,
      getD_zipWith _ _ _ _ (by simp [har]; omega) (by rw [length_uniformVec]; omega)]
    congr 1
    rw [List.getD_eq_getElem?_getD, List.getD_eq_getElem?_getD, List.getElem?_drop]
    congr 2
    omega
  · intro j hj
    refine ⟨(uniformVec (stepKey k 4) 3 (-0.05) 0.05).getD j 0,
      (uniformVec_getD_mem _ 3 _ _ j (by norm_num [COM_POS_JITTER_MIN]) hj).1,
      (uniformVec_getD_mem _ 3 _ _ j (by norm_num [COM_POS_JITTER_MAX]) hj).2, ?_⟩
    rw [spec_perturb_body_ipos, getD_set_self _ _ _ _ (by omega),
      getD_zipWith _ _ _ _ (by omega) (by rw [length_uniformVec]; exact hj)]
  · intro p hp hp1
    refine ⟨(uniformVec (stepKey k 5) m.body_mass.length 0.9 1.1).getD p 0,
      (uniformVec_getD_mem _ _ _ _ p (by norm_num [LINK_MASS_SCALE_MIN]) hp).1,
      (uniformVec_getD_mem _ _ _ _ p (by norm_num [LINK_MASS_SCALE_MAX]) hp).2, ?_⟩
    rw [spec_perturb_body_mass, getD_set_ne _ _ _ _ _ (by omega),
      getD_zipWith _ _ _ _ hp (by rw [length_uniformVec]; exact hp)]
  · refine ⟨(uniformVec (stepKey k 5) m.body_mass.length 0.9 1.1).getD 1 0,
      uniformScalar (stepKey k 6) (-0.5) 0.5,
      (uniformVec_getD_mem _ _ _ _ 1 (by norm_num [LINK_MASS_SCALE_MIN]) (by omega)).1,
      (uniformVec_getD_mem _ _ _ _ 1 (by norm_num [LINK_MASS_SCALE_MAX]) (by omega)).2,
      (uniformScalar_mem (stepKey k 6) (-0.5) 0.5 (by norm_num [ADDED_MASS_MIN])).1,
      (uniformScalar_mem (stepKey k 6) (-0.5) 0.5 (by norm_num [ADDED_MASS_MAX])).2, ?_⟩
    rw [spec_perturb_body_mass,
      getD_set_self _ _ _ _ (by simp [List.length_zipWith, length_uniformVec]; omega),
      getD_zipWith _ _ _ _ (by omega) (by rw [length_uniformVec]; omega)]
  · intro q hq1 hq2
    refine ⟨(uniformVec (stepKey k 7) 12 (-0.05) 0.05).getD (q - 7) 0,
      (uniformVec_getD_mem _ 12 _ _ (q - 7) (by norm_num [INIT_QPOS_JITTER_MIN]) (by omega)).1,
      (uniformVec_getD_mem _ 12 _ _ (q - 7) (by norm_num [INIT_QPOS_JITTER_MAX]) (by omega)).2, ?_⟩
    rw [spec_perturb_qpos0, getD_takeAppend _ _ 7 q (by omega) hq1,
      getD_zipWith _ _ _ _ (by simp [hq]; omega) (by rw [length_uniformVec]; omega)]
    congr 1
    rw [List.getD_eq_getElem?_getD, List.getD_eq_getElem?_getD, List.getElem?_drop]
    congr 2
    omega

/-- C8 witness at a concrete model, seed batch and slice. -/
theorem C8_range_containment_witness :
    (FLOOR_FRICTION_MIN ≤ ((spec_perturb sampleModel 5).geom_friction.getD 0 []).getD 0 0 ∧
      ((spec_perturb sampleModel 5).geom_friction.getD 0 []).getD 0 0 ≤ FLOOR_FRICTION_MAX) ∧
    (∀ d, 6 ≤ d → d < 18 → ∃ c, DOF_FRICTIONLOSS_SCALE_MIN ≤ c ∧
      c ≤ DOF_FRICTIONLOSS_SCALE_MAX ∧
      (spec_perturb sampleModel 5).dof_frictionloss.getD d 0
        = sampleModel.dof_frictionloss.getD d 0 * c) ∧
    (∀ d, 6 ≤ d → d < 18 → ∃ c, ARMAUTRE_SCALE_MIN ≤ c ∧ c ≤ ARMAUTRE_SCALE_MAX ∧
      (spec_perturb sampleModel 5).dof_armature.getD d 0
        = sampleModel.dof_armature.getD d 0 * c) ∧
    (∀ j, j < 3 → ∃ d, COM_POS_JITTER_MIN ≤ d ∧ d ≤ COM_POS_JITTER_MAX ∧
      ((spec_perturb sampleModel 5).body_ipos.getD 1 []).getD j 0
        = (sampleModel.body_ipos.getD 1 []).getD j 0 + d) ∧
    (∀ p, p < sampleModel.body_mass.length → p ≠ 1 → ∃ c, LINK_MASS_SCALE_MIN ≤ c ∧
      c ≤ LINK_MASS_SCALE_MAX ∧
      (spec_perturb sampleModel 5).body_mass.getD p 0
        = sampleModel.body_mass.getD p 0 * c) ∧
    (∃ c d, LINK_MASS_SCALE_MIN ≤ c ∧ c ≤ LINK_MASS_SCALE_MAX ∧
      ADDED_MASS_MIN ≤ d ∧ d ≤ ADDED_MASS_MAX ∧
      (spec_perturb sampleModel 5).body_mass.getD 1 0
        = sampleModel.body_mass.getD 1 0 * c + d) ∧
    (∀ q, 7 ≤ q → q < 19 → ∃ d, INIT_QPOS_JITTER_MIN ≤ d ∧ d ≤ INIT_QPOS_JITTER_MAX ∧
      (spec_perturb sampleModel 5).qpos0.getD q 0 = sampleModel.qpos0.getD q 0 + d) :=
  C8_range_containment sampleModel [5]
    (assembleBatch sampleModel ([5].map (spec_perturb sampleModel)))
    (axis_spec_of sampleModel) 0 (spec_perturb sampleModel 5) (by decide)
    (domain_randomize_ok sampleModel [5] (by decide))
    (by rw [batchSlice_assemble]; rfl)

/-- C10: the engine applies no clamping or positivity check: in every
batch slice the output torso mass is exactly (baseline torso mass × its
step-5 per-body scale draw) + the step-6 additive delta, and draws within
the declared ranges (e.g. scale 0.9, delta -0.5 on a baseline torso mass
of 1/2 < 5/9) make that value negative. -/
theorem C10_no_positivity_clamp :
    (∀ (m : MjxModel) (seeds : List Key) (b : BatchedModel) (ax : AxisSpec) (i : Nat)
      (r : EnvResult), validModel m = true →
      domain_randomize m seeds = Except.ok (b, ax) →
      batchSlice b i = some r →
      ∃ k, seeds[i]? = some k ∧
        r.body_mass.getD 1 0 =
          m.body_mass.getD 1 0 *
            (uniformVec (stepKey k 5) m.body_mass.length LINK_MASS_SCALE_MIN
              LINK_MASS_SCALE_MAX).getD 1 0 +
            uniformScalar (stepKey k 6) ADDED_MASS_MIN ADDED_MASS_MAX) ∧
    (∃ base c d : ℚ, 0 < base ∧ LINK_MASS_SCALE_MIN ≤ c ∧ c ≤ LINK_MASS_SCALE_MAX ∧
      ADDED_MASS_MIN ≤ d ∧ d ≤ ADDED_MASS_MAX ∧ base * c + d < 0) := by
  constructor
  · intro m seeds b ax i r hm h hs
    obtain ⟨hfl, har, hq, hnb, hiplen, hiprow, hgflen, hgfrow⟩ := (validModel_iff m).mp hm
    obtain ⟨k, hk, rfl⟩ := slice_of_ok m seeds b ax i r hm h hs
    refine ⟨k, hk, ?_⟩
    rw [spec_perturb_body_mass,
      getD_set_self _ _ _ _ (by simp [List.length_zipWith, length_uniformVec]; omega),
      getD_zipWith _ _ _ _ (by omega) (by rw [length_uniformVec]; omega)]
    rfl
  · refine ⟨1/2, 0.9, -(1/2), by norm_num, by norm_num [LINK_MASS_SCALE_MIN],
      by norm_num [LINK_MASS_SCALE_MAX], by norm_num [ADDED_MASS_MIN],
      by norm_num [ADDED_MASS_MAX], by norm_num⟩

/-- C10 witness at a concrete model, seed batch and slice. -/
theorem C10_no_positivity_clamp_witness :
    validModel sampleModel = true ∧
    (∃ k, (([5] : List Key))[0]? = some k ∧
      (spec_perturb sampleModel 5).body_mass.getD 1 0 =
        sampleModel.body_mass.getD 1 0 *
          (uniformVec (stepKey k 5) sampleModel.body_mass.length LINK_MASS_SCALE_MIN
            LINK_MASS_SCALE_MAX).getD 1 0 +
          uniformScalar (stepKey k 6) ADDED_MASS_MIN ADDED_MASS_MAX) :=
  ⟨by decide, C10_no_positivity_clamp.1 sampleModel [5]
    (assembleBatch sampleModel ([5].map (spec_perturb sampleModel)))
    (axis_spec_of sampleModel) 0 (spec_perturb sampleModel 5) (by decide)
    (domain_randomize_ok sampleModel [5] (by decide))
    (by rw [batchSlice_assemble]; rfl)⟩
